import Mathlib

/-!
Shallow embedding of the token-based authentication and authorization
subsystem of the fullstack-devops repository:

* the identity (auth) service routes in `src/unnamed/part_001`
  (register/login/refresh-token/logout/users/profile plus its own
  auth middleware), and
* the todo (resource) service in `src/services/todo-service`
  (`authMiddleware.js` and the route handlers of `src/index.js`).

Machine conventions used throughout:

* time is `Nat`; `nowMs` is milliseconds since the epoch (JS `Date.now()`),
  `nowSec` is seconds (what `jsonwebtoken` uses for `iat`/`exp`);
* `jsonwebtoken` signing is modelled by an unforgeable MAC: the signature
  is the pair (payload, secret), so a token verifies against a secret iff
  it was signed with that payload and that secret;
* `bcrypt.hash` is modelled by a deterministic injective tagging function
  and `bcrypt.compare` by rehash-and-compare; the claims considered here
  depend only on match/mismatch, never on hash internals;
* SQL queries are modelled row-by-row on `List` tables; `rows[0]` becomes
  `List.find?`; an `UPDATE ... WHERE c` becomes `List.map` guarded by `c`;
* a JS falsy check `!x` on a string-valued request field treats both an
  absent field (`none`) and the empty string as falsy, mirroring
  `undefined` and `""`.
-/

/-- JWT claim set as produced by `jwt.sign({ userId, username }, secret,
{ expiresIn: '15m' })`: `iat` and `exp` in seconds. -/
structure JwtPayload where
  userId : Nat
  username : String
  iat : Nat
  exp : Nat
deriving DecidableEq, Repr

/-- MAC of a payload under a secret, modelled as the pair itself
(unforgeable and collision-free, which is the property the code relies on). -/
def mkSig (p : JwtPayload) (secret : String) : JwtPayload × String :=
  (p, secret)

/-- Signed token: payload plus signature. -/
structure Jwt where
  payload : JwtPayload
  sig : JwtPayload × String
deriving DecidableEq, Repr

/-- Model of `jwt.sign({userId, username}, secret, {expiresIn})`:
`iat = nowSec`, `exp = nowSec + expiresInSec`. -/
def jwtSign (userId : Nat) (username : String) (secret : String)
    (nowSec expiresInSec : Nat) : Jwt :=
  let p : JwtPayload :=
    { userId := userId, username := username,
      iat := nowSec, exp := nowSec + expiresInSec }
  { payload := p, sig := mkSig p secret }

/-- Model of `jwt.verify(token, secret)` evaluated at clock `nowSec`:
succeeds iff the signature matches the secret and `nowSec < exp`
(jsonwebtoken throws `TokenExpiredError` when the clock reaches `exp`). -/
def jwtVerify (t : Jwt) (secret : String) (nowSec : Nat) : Option JwtPayload :=
  if t.sig = mkSig t.payload secret ∧ nowSec < t.payload.exp then
    some t.payload
  else
    none

/-- Model of `bcrypt.hash(pw, 10)`: deterministic injective tagging. -/
def bcryptHash (pw : String) : String :=
  "bcrypt10:" ++ pw

/-- Model of `bcrypt.compare(pw, stored)`: true iff `stored` is the hash
of `pw`. -/
def bcryptCompare (pw stored : String) : Bool :=
  stored == bcryptHash pw

/-- JS `a || b` on two optional string-valued fields: an absent field and
the empty string are both falsy. -/
def jsOr (a b : Option String) : Option String :=
  match a with
  | some s => if s = "" then b else some s
  | none => b

namespace AuthSvc

/-- Row of the auth service `users` table
(`id, username, email, password, created_at, refresh_token,
refresh_token_expires`); the password column stores the bcrypt hash,
`refresh_token` and its expiry are NULLable. -/
structure UserRow where
  id : Nat
  username : String
  email : String
  password : String
  created_at : Nat
  refresh_token : Option String
  refresh_token_expires : Option Nat
deriving DecidableEq, Repr

/-- The `users` table. -/
abbrev UsersTable := List UserRow

/-- Value carried by a `Set-Cookie`: either a signed JWT (access token)
or an opaque string (refresh token). -/
inductive CookieVal where
  | jwt (t : Jwt)
  | str (s : String)
deriving DecidableEq, Repr

/-- Outcome of an identity-service route: HTTP status, JSON body message,
cookies set, cookies cleared, and the `users` table afterwards. -/
structure AuthResult where
  status : Nat
  body : String
  setCookies : List (String × CookieVal)
  clearedCookies : List String
  table : UsersTable
deriving DecidableEq, Repr

/-- Model of `SELECT * FROM users WHERE email=$1` followed by `rows[0]`. -/
def findByEmail (tbl : UsersTable) (e : String) : Option UserRow :=
  tbl.find? (fun u => u.email == e)

/-- Model of `SELECT * FROM users WHERE refresh_token=$1` followed by
`rows[0]`; a NULL stored token matches nothing. -/
def findByRefreshToken (tbl : UsersTable) (t : String) : Option UserRow :=
  tbl.find? (fun u => u.refresh_token == some t)

/-- Model of `UPDATE users SET refresh_token=$1, refresh_token_expires=$2
WHERE id=$3`. -/
def setRefreshToken (tbl : UsersTable) (uid : Nat) (tok : String)
    (expMs : Nat) : UsersTable :=
  tbl.map (fun u =>
    if u.id = uid then
      { u with refresh_token := some tok, refresh_token_expires := some expMs }
    else u)

/-- Model of `UPDATE users SET refresh_token=NULL, refresh_token_expires=NULL
WHERE refresh_token=$1` (the logout query). -/
def clearRefreshTokenByValue (tbl : UsersTable) (t : String) : UsersTable :=
  tbl.map (fun u =>
    if u.refresh_token == some t then
      { u with refresh_token := none, refresh_token_expires := none }
    else u)

/-- JS `new Date(x)` on a NULLable timestamp: NULL coerces to the epoch. -/
def tsOrEpoch : Option Nat → Nat
  | none => 0
  | some e => e

/-- Access-token minting as done inline in `/login` and `/refresh-token`:
`jwt.sign({ userId, username }, JWT_SECRET, { expiresIn: '15m' })`. -/
def issueAccessToken (u : UserRow) (secret : String) (nowMs : Nat) : Jwt :=
  jwtSign u.id u.username secret (nowMs / 1000) (15 * 60)

/-- Refresh-token lifetime: `7 * 24 * 60 * 60 * 1000` ms. -/
def refreshLifetimeMs : Nat := 7 * 24 * 60 * 60 * 1000

/-- POST `/login` handler. `freshTok` stands for the
`crypto.randomBytes(64).toString('hex')` draw of this request. -/
def login (tbl : UsersTable) (email password : String) (freshTok : String)
    (nowMs : Nat) (secret : String) : AuthResult :=
  if email = "" ∨ password = "" then
    ⟨400, "Email and password required", [], [], tbl⟩
  else
    match findByEmail tbl email with
    | none => ⟨400, "Invalid credentials", [], [], tbl⟩
    | some user =>
      if ¬ bcryptCompare password user.password then
        ⟨400, "Invalid credentials", [], [], tbl⟩
      else
        let accessToken := issueAccessToken user secret nowMs
        let tbl1 := setRefreshToken tbl user.id freshTok (nowMs + refreshLifetimeMs)
        ⟨200, "Logged in",
          [("accessToken", .jwt accessToken), ("refreshToken", .str freshTok)],
          [], tbl1⟩

/-- POST `/refresh-token` handler: SELECT by presented token, expiry check
(`new Date() > new Date(user.refresh_token_expires)`), then UPDATE by the
found row's id with a fresh token. -/
def refreshRoute (tbl : UsersTable) (cookieTok : Option String)
    (freshTok : String) (nowMs : Nat) (secret : String) : AuthResult :=
  match cookieTok with
  | none => ⟨401, "No refresh token provided", [], [], tbl⟩
  | some t =>
    match findByRefreshToken tbl t with
    | none => ⟨401, "Invalid refresh token", [], [], tbl⟩
    | some user =>
      if nowMs > tsOrEpoch user.refresh_token_expires then
        ⟨401, "Refresh token expired", [], [], tbl⟩
      else
        let accessToken := issueAccessToken user secret nowMs
        let tbl1 := setRefreshToken tbl user.id freshTok (nowMs + refreshLifetimeMs)
        ⟨200, "Tokens refreshed",
          [("accessToken", .jwt accessToken), ("refreshToken", .str freshTok)],
          [], tbl1⟩

/-- POST `/logout` handler: `req.body.refreshToken || req.cookies.refreshToken`;
400 when neither is present, otherwise conditional NULLing UPDATE, clear both
cookies, 200. -/
def logout (tbl : UsersTable) (bodyTok cookieTok : Option String) : AuthResult :=
  match jsOr bodyTok cookieTok with
  | none => ⟨400, "Refresh token required", [], [], tbl⟩
  | some t =>
    ⟨200, "Logged out successfully", [], ["accessToken", "refreshToken"],
      clearRefreshTokenByValue tbl t⟩

/-- Auth-service middleware (`part_001` lines 177-188): absent cookie gives
401 `Unauthorized`; failed verification gives 401 `Invalid or expired token`;
otherwise the request proceeds with the payload attached. -/
inductive MwOutcome where
  | unauthorized (status : Nat) (body : String)
  | authorized (p : JwtPayload)
deriving DecidableEq, Repr

/-- Model of the auth service `authMiddleware`. -/
def authMiddleware (cookieTok : Option Jwt) (secret : String)
    (nowSec : Nat) : MwOutcome :=
  match cookieTok with
  | none => .unauthorized 401 "Unauthorized"
  | some t =>
    match jwtVerify t secret nowSec with
    | none => .unauthorized 401 "Invalid or expired token"
    | some p => .authorized p

/-- Public projection of a user row as returned by GET `/users`:
`SELECT id, username, email, created_at`. -/
def publicFields (u : UserRow) : Nat × String × String × Nat :=
  (u.id, u.username, u.email, u.created_at)

/-- GET `/users` handler (behind the auth middleware): status plus the
optional body listing every user's public fields. -/
def getUsers (tbl : UsersTable) (cookieTok : Option Jwt) (secret : String)
    (nowSec : Nat) : Nat × Option (List (Nat × String × String × Nat)) :=
  match authMiddleware cookieTok secret nowSec with
  | .unauthorized st _ => (st, none)
  | .authorized _ => (200, some (tbl.map publicFields))

/-- Per-caller outcome of a refresh attempt in the interleaving model of
`/refresh-token`: either 200 `Tokens refreshed` or a 401 failure body. -/
inductive RefreshOutcome where
  | ok
  | fail (body : String)
deriving DecidableEq, Repr

/-- First atomic database step of `/refresh-token`: the
`SELECT * FROM users WHERE refresh_token=$1` plus the in-process expiry
check; on failure it carries the 401 body the handler would send. -/
def refreshReadPhase (tbl : UsersTable) (t : String) (nowMs : Nat) :
    Except String UserRow :=
  match findByRefreshToken tbl t with
  | none => .error "Invalid refresh token"
  | some user =>
    if nowMs > tsOrEpoch user.refresh_token_expires then
      .error "Refresh token expired"
    else
      .ok user

/-- Second atomic database step of `/refresh-token`: the unconditional
`UPDATE users SET refresh_token=$1, refresh_token_expires=$2 WHERE id=$3`,
which matches on `id`, not on the presented token value. -/
def refreshWritePhase (tbl : UsersTable) (uid : Nat) (freshTok : String)
    (nowMs : Nat) : UsersTable :=
  setRefreshToken tbl uid freshTok (nowMs + refreshLifetimeMs)

/-- Two concurrent `/refresh-token` requests A and B presenting the same
cookie token `t`, run under the interleaving SELECT(A); SELECT(B);
UPDATE(A); UPDATE(B) — a legal schedule, since each handler suspends at
every `await pool.query` and the two phases are separate queries. Returns
(A's outcome, B's outcome, final table). -/
def refreshRace (tbl : UsersTable) (t freshA freshB : String) (nowMs : Nat) :
    RefreshOutcome × RefreshOutcome × UsersTable :=
  match refreshReadPhase tbl t nowMs with
  | .error eA =>
    match refreshReadPhase tbl t nowMs with
    | .error eB => (.fail eA, .fail eB, tbl)
    | .ok uB => (.fail eA, .ok, refreshWritePhase tbl uB.id freshB nowMs)
  | .ok uA =>
    match refreshReadPhase tbl t nowMs with
    | .error eB =>
      (.ok, .fail eB, refreshWritePhase tbl uA.id freshA nowMs)
    | .ok uB =>
      let tbl1 := refreshWritePhase tbl uA.id freshA nowMs
      let tbl2 := refreshWritePhase tbl1 uB.id freshB nowMs
      (.ok, .ok, tbl2)

end AuthSvc

namespace TodoSvc

/-- Row of the todo service `todos` table. `title`, `description` and
`status` are NULLable at the column level (the insert path can pass NULL
for each); the only constraint used here is `title NOT NULL`, from the
repository's `CREATE TABLE todos` statement. -/
structure Todo where
  id : Nat
  title : Option String
  description : Option String
  status : Option String
  user_id : Nat
deriving DecidableEq, Repr

/-- The `todos` table. -/
abbrev TodosTable := List Todo

/-- Terminal decision of the todo service `authMiddleware.js`: 401 with
no token, 403 when `jwt.verify` throws, otherwise the request proceeds
with `req.user = { id: decoded.userId, username: decoded.username }`. -/
inductive MwOutcome where
  | rejected (status : Nat) (body : String)
  | authorized (id : Nat) (username : String)
deriving DecidableEq, Repr

/-- Model of the todo service `authMiddleware`. -/
def authMiddleware (cookieTok : Option Jwt) (secret : String)
    (nowSec : Nat) : MwOutcome :=
  match cookieTok with
  | none => .rejected 401 "No token provided"
  | some t =>
    match jwtVerify t secret nowSec with
    | none => .rejected 403 "Invalid or expired token"
    | some p => .authorized p.userId p.username

/-- HTTP status the middleware responds with, or `none` when it calls
`next()` and the route handler runs. -/
def mwStatus : MwOutcome → Option Nat
  | .rejected st _ => some st
  | .authorized _ _ => none

/-- Body of a todo route response. -/
inductive TodoBody where
  | rows (l : List Todo)
  | row (t : Todo)
  | err (s : String)
  | deleted
deriving DecidableEq, Repr

/-- Outcome of a todo route: HTTP status, body, table afterwards. -/
structure TodoResult where
  status : Nat
  body : TodoBody
  table : TodosTable
deriving DecidableEq, Repr

/-- GET `/` handler: `SELECT * FROM todos WHERE user_id = $1 ORDER BY id
ASC` for the verified caller `uid`. -/
def listTodos (tbl : TodosTable) (uid : Nat) : TodoResult :=
  ⟨200, .rows ((tbl.filter (fun r => r.user_id == uid)).mergeSort
      (fun r s => r.id ≤ s.id)), tbl⟩

/-- GET `/:id` handler: `SELECT * FROM todos WHERE id = $1 AND user_id =
$2`; empty result is a 404. -/
def getTodo (tbl : TodosTable) (tid uid : Nat) : TodoResult :=
  match tbl.find? (fun r => r.id == tid && r.user_id == uid) with
  | none => ⟨404, .err "Todo not found or access denied", tbl⟩
  | some r => ⟨200, .row r, tbl⟩

/-- JS `status || "Todo"` on the optional request field. -/
def statusOrTodo (s : Option String) : String :=
  match s with
  | some v => if v = "" then "Todo" else v
  | none => "Todo"

/-- POST `/` handler: `INSERT INTO todos (title, description, status,
user_id) VALUES ($1, $2, $3 || 'Todo', req.user.id)`. `newId` is the id
the database assigns. A NULL `title` violates the table's NOT NULL
constraint, so the insert raises and the catch branch answers 500. -/
def createTodo (tbl : TodosTable) (uid : Nat)
    (title description status : Option String) (newId : Nat) : TodoResult :=
  match title with
  | none => ⟨500, .err "Database error", tbl⟩
  | some _ =>
    let row : Todo :=
      ⟨newId, title, description, some (statusOrTodo status), uid⟩
    ⟨201, .row row, tbl ++ [row]⟩

/-- PUT `/:id` handler: `UPDATE todos SET title=$1, description=$2,
status=$3 WHERE id=$4 AND user_id=$5 RETURNING *`; zero rows matched is a
404; a matched row with a NULL `title` in the body violates NOT NULL, so
the update raises and the catch branch answers 500. -/
def updateTodo (tbl : TodosTable) (tid uid : Nat)
    (title description status : Option String) : TodoResult :=
  if (tbl.find? (fun r => r.id == tid && r.user_id == uid)).isNone then
    ⟨404, .err "Todo not found or access denied", tbl⟩
  else
    match title with
    | none => ⟨500, .err "Database error", tbl⟩
    | some _ =>
      match (tbl.map (fun r =>
          if r.id == tid && r.user_id == uid then
            { r with title := title, description := description,
                     status := status }
          else r)).find? (fun r => r.id == tid && r.user_id == uid) with
      | none => ⟨404, .err "Todo not found or access denied", tbl⟩
      | some r =>
        ⟨200, .row r, tbl.map (fun r =>
          if r.id == tid && r.user_id == uid then
            { r with title := title, description := description,
                     status := status }
          else r)⟩

/-- DELETE `/:id` handler (soft delete): `UPDATE todos SET status='Deleted'
WHERE id=$1 AND user_id=$2 RETURNING *`; zero rows matched is a 404. -/
def softDeleteTodo (tbl : TodosTable) (tid uid : Nat) : TodoResult :=
  match (tbl.map (fun r =>
      if r.id == tid && r.user_id == uid then
        { r with status := some "Deleted" }
      else r)).find? (fun r => r.id == tid && r.user_id == uid) with
  | none => ⟨404, .err "Todo not found or access denied", tbl⟩
  | some r =>
    ⟨200, .row r, tbl.map (fun r =>
      if r.id == tid && r.user_id == uid then
        { r with status := some "Deleted" }
      else r)⟩

/-- DELETE `/:id/permanent` handler: `DELETE FROM todos WHERE id=$1 AND
user_id=$2 RETURNING *`; zero rows matched is a 404. -/
def permanentDeleteTodo (tbl : TodosTable) (tid uid : Nat) : TodoResult :=
  if (tbl.find? (fun r => r.id == tid && r.user_id == uid)).isNone then
    ⟨404, .err "Todo not found or access denied", tbl⟩
  else
    ⟨200, .deleted, tbl.filter (fun r => !(r.id == tid && r.user_id == uid))⟩

end TodoSvc

/-! Sample data used by closed theorems and witnesses. -/

/-- Sample auth-service table: one user, current refresh token "t0"
expiring at ms-timestamp 1000. -/
def sampleUsers : AuthSvc.UsersTable :=
  [⟨1, "alice", "alice@x.com", bcryptHash "pw123456", 0, some "t0", some 1000⟩]

/-- Sample todos table: id 1 owned by account 1, id 2 owned by account 2. -/
def sampleTodos : TodoSvc.TodosTable :=
  [⟨1, some "buy milk", some "2l", some "Todo", 1⟩,
   ⟨2, some "ship release", none, some "InProgress", 2⟩]

/-! Helper lemmas. -/

/-- Clearing a token value from a table none of whose rows hold it is a
no-op. -/
lemma clearRefreshTokenByValue_of_absent (l : AuthSvc.UsersTable) (t : String)
    (h : ∀ u ∈ l, u.refresh_token ≠ some t) :
    AuthSvc.clearRefreshTokenByValue l t = l := by
  induction l with
  | nil => rfl
  | cons x xs ih =>
    have hx : x.refresh_token ≠ some t := h x (by simp)
    have hxs : ∀ u ∈ xs, u.refresh_token ≠ some t := fun u hu => h u (by simp [hu])
    simp [AuthSvc.clearRefreshTokenByValue, hx, List.map_cons] at ih ⊢
    exact ih hxs

/-- No row of a cleared table still holds the cleared token value. -/
lemma clearRefreshTokenByValue_clears (l : AuthSvc.UsersTable) (t : String) :
    ∀ u ∈ AuthSvc.clearRefreshTokenByValue l t, u.refresh_token ≠ some t := by
  intro u hu
  obtain ⟨v, hv, rfl⟩ := List.mem_map.1 hu
  by_cases h : v.refresh_token = some t
  · simp [h]
  · simp [show (v.refresh_token == some t) = false by simpa using h, h]

/-- After the rotation UPDATE, no row matches the superseded token value,
provided the fresh value differs from it and every holder of the old value
had the rotated row's id. -/
lemma findByRefreshToken_after_rotate (tbl : AuthSvc.UsersTable)
    (t f : String) (uid e : Nat) (hf : f ≠ t)
    (hall : ∀ v ∈ tbl, v.refresh_token = some t → v.id = uid) :
    AuthSvc.findByRefreshToken (AuthSvc.setRefreshToken tbl uid f e) t
      = none := by
  unfold AuthSvc.findByRefreshToken AuthSvc.setRefreshToken
  rw [List.find?_eq_none]
  intro x hx
  obtain ⟨v, hv, rfl⟩ := List.mem_map.1 hx
  by_cases hid : v.id = uid
  · simp [hid, hf]
  · simp [hid]
    intro hcon
    exact hid (hall v hv hcon)

/-- Mapping a row transformer that fixes every row not owned by `a` and
never changes ownership leaves the sublist of rows owned by other
accounts untouched. -/
lemma filter_not_owner_map (l : TodoSvc.TodosTable) (a : Nat)
    (g : TodoSvc.Todo → TodoSvc.Todo)
    (hfix : ∀ r, (r.user_id == a) = false → g r = r)
    (hpre : ∀ r, (g r).user_id = r.user_id) :
    (l.map g).filter (fun r => !(r.user_id == a))
      = l.filter (fun r => !(r.user_id == a)) := by
  induction l with
  | nil => rfl
  | cons x xs ih =>
    cases hx : (x.user_id == a) with
    | true =>
      have hgx : ((g x).user_id == a) = true := by rw [hpre]; exact hx
      simp [List.filter_cons, hx, hgx, ih]
    | false =>
      have hfx := hfix x hx
      simp [List.filter_cons, hx, hfx, ih]

/-- Removing rows of the addressed id owned by `a` leaves the sublist of
rows owned by other accounts untouched. -/
lemma filter_not_owner_filter (l : TodoSvc.TodosTable) (a tid : Nat) :
    (l.filter (fun r => !(r.id == tid && r.user_id == a))).filter
        (fun r => !(r.user_id == a))
      = l.filter (fun r => !(r.user_id == a)) := by
  rw [List.filter_filter]
  refine List.filter_congr ?_
  intro r _
  cases hx : (r.user_id == a) with
  | true => simp [hx]
  | false => simp [hx]

/-- A predicate preserved by the transformer and false on every row of a
table is found on no row of its image. -/
lemma find?_map_pred_none (l : TodoSvc.TodosTable)
    (p : TodoSvc.Todo → Bool) (g : TodoSvc.Todo → TodoSvc.Todo)
    (hp : ∀ r, p (g r) = p r) (h : ∀ r ∈ l, p r = false) :
    (l.map g).find? p = none := by
  rw [List.find?_eq_none]
  intro x hx
  obtain ⟨v, hv, rfl⟩ := List.mem_map.1 hx
  simp [hp v, h v hv]

/-! Claim theorems. -/

/-- C1 (the code refutes the claimed atomicity): the handler is
SELECT-then-UPDATE-by-id, not one conditional update on the presented
value, so under the legal interleaving SELECT(A); SELECT(B); UPDATE(A);
UPDATE(B), two concurrent refresh calls presenting the same valid token
"t0" BOTH succeed with 200, rotating twice; caller A is even handed the
refresh cookie "fa" that the final store no longer contains. -/
theorem refresh_race_both_succeed :
    (AuthSvc.refreshRace sampleUsers "t0" "fa" "fb" 500).1 = .ok ∧
    (AuthSvc.refreshRace sampleUsers "t0" "fa" "fb" 500).2.1 = .ok ∧
    (AuthSvc.refreshRace sampleUsers "t0" "fa" "fb" 500).2.2
      = [⟨1, "alice", "alice@x.com", bcryptHash "pw123456", 0, some "fb",
          some (500 + AuthSvc.refreshLifetimeMs)⟩] := by
  refine ⟨rfl, rfl, ?_⟩
  simp [AuthSvc.refreshRace, AuthSvc.refreshReadPhase, AuthSvc.refreshWritePhase,
    AuthSvc.findByRefreshToken, AuthSvc.setRefreshToken, sampleUsers,
    AuthSvc.tsOrEpoch, AuthSvc.refreshLifetimeMs]

/-- C3 counterexample: a logout request carrying no refresh token in
either the body or the cookie is answered 400 with no cookies cleared,
not 200 with both cookies cleared. -/
theorem logout_no_token_returns_400 :
    AuthSvc.logout sampleUsers none none
      = ⟨400, "Refresh token required", [], [], sampleUsers⟩ ∧
    (400 : Nat) ≠ 200 := by
  exact ⟨rfl, by decide⟩

/-- C3 amended: whenever a refresh token IS presented (body or cookie,
body taking precedence), logout answers 200, clears both cookies, clears
the server-side refresh state of exactly the rows holding the presented
value (all matching rows are cleared, all others are untouched), and
repeating the same logout yields the same outcome with the store
unchanged; but a request with no token present is answered 400 with no
cookies cleared. -/
theorem logout_with_token_behavior (tbl : AuthSvc.UsersTable)
    (bodyTok cookieTok : Option String) (t : String)
    (hpres : jsOr bodyTok cookieTok = some t) :
    AuthSvc.logout tbl bodyTok cookieTok
      = ⟨200, "Logged out successfully", [], ["accessToken", "refreshToken"],
          AuthSvc.clearRefreshTokenByValue tbl t⟩ ∧
    (∀ u ∈ (AuthSvc.logout tbl bodyTok cookieTok).table,
        u.refresh_token ≠ some t) ∧
    (∀ (i : Nat) (w : AuthSvc.UserRow), tbl[i]? = some w →
        w.refresh_token ≠ some t →
        (AuthSvc.logout tbl bodyTok cookieTok).table[i]? = some w) ∧
    AuthSvc.logout (AuthSvc.logout tbl bodyTok cookieTok).table bodyTok
        cookieTok
      = ⟨200, "Logged out successfully", [], ["accessToken", "refreshToken"],
          (AuthSvc.logout tbl bodyTok cookieTok).table⟩ := by
  have hl : AuthSvc.logout tbl bodyTok cookieTok
      = ⟨200, "Logged out successfully", [], ["accessToken", "refreshToken"],
          AuthSvc.clearRefreshTokenByValue tbl t⟩ := by
    simp [AuthSvc.logout, hpres]
  refine ⟨hl, ?_, ?_, ?_⟩
  · rw [hl]
    exact clearRefreshTokenByValue_clears tbl t
  · intro i w hw hnt
    rw [hl]
    simp [AuthSvc.clearRefreshTokenByValue, List.getElem?_map, hw,
      show (w.refresh_token == some t) = false by simpa using hnt]
    exact fun h => absurd h hnt
  · rw [hl]
    simp only [AuthSvc.logout, hpres]
    rw [clearRefreshTokenByValue_of_absent _ t
      (clearRefreshTokenByValue_clears tbl t)]

/-- C3 amended, witness: logout of the sample store with the stored token
presented in the cookie only. -/
theorem logout_with_token_behavior_witness :
    AuthSvc.logout sampleUsers none (some "t0")
      = ⟨200, "Logged out successfully", [], ["accessToken", "refreshToken"],
          AuthSvc.clearRefreshTokenByValue sampleUsers "t0"⟩ :=
  (logout_with_token_behavior sampleUsers none (some "t0") "t0" rfl).1

/-- C2: if a refresh presented with token `t` succeeds (and `t` is held by
at most one account, and the freshly drawn replacement differs from `t`),
then re-presenting `t` against the resulting store fails 401
`Invalid refresh token`, sets no cookies, and leaves the store unchanged —
and that outcome is literally the response produced for a token matching
no row at all, so the superseded token is indistinguishable from one that
never existed. -/
theorem refresh_supersedes_old_token (tbl : AuthSvc.UsersTable)
    (t f1 f2 f3 : String) (n1 n2 n3 : Nat) (secret : String)
    (hfresh : f1 ≠ t)
    (huniq : ∀ v ∈ tbl, ∀ w ∈ tbl, v.refresh_token = some t →
        w.refresh_token = some t → v.id = w.id)
    (hsucc : (AuthSvc.refreshRoute tbl (some t) f1 n1 secret).status = 200) :
    AuthSvc.refreshRoute (AuthSvc.refreshRoute tbl (some t) f1 n1 secret).table
        (some t) f2 n2 secret
      = ⟨401, "Invalid refresh token", [], [],
          (AuthSvc.refreshRoute tbl (some t) f1 n1 secret).table⟩ ∧
    ∀ tNever : String,
      AuthSvc.findByRefreshToken
          (AuthSvc.refreshRoute tbl (some t) f1 n1 secret).table tNever
        = none →
      AuthSvc.refreshRoute
          (AuthSvc.refreshRoute tbl (some t) f1 n1 secret).table
          (some tNever) f3 n3 secret
        = ⟨401, "Invalid refresh token", [], [],
            (AuthSvc.refreshRoute tbl (some t) f1 n1 secret).table⟩ := by
  cases hfind : AuthSvc.findByRefreshToken tbl t with
  | none =>
    simp [AuthSvc.refreshRoute, hfind] at hsucc
  | some user =>
    by_cases hexp : n1 > AuthSvc.tsOrEpoch user.refresh_token_expires
    · simp [AuthSvc.refreshRoute, hfind, hexp] at hsucc
    · have hfst : (AuthSvc.refreshRoute tbl (some t) f1 n1 secret).table
          = AuthSvc.setRefreshToken tbl user.id f1
              (n1 + AuthSvc.refreshLifetimeMs) := by
        simp [AuthSvc.refreshRoute, hfind, hexp]
      have hmem := List.mem_of_find?_eq_some hfind
      have htok : user.refresh_token = some t := by
        have := List.find?_some hfind
        simpa using this
      have hnone : AuthSvc.findByRefreshToken
          (AuthSvc.refreshRoute tbl (some t) f1 n1 secret).table t = none := by
        rw [hfst]
        exact findByRefreshToken_after_rotate tbl t f1 user.id _ hfresh
          (fun v hv hvt => huniq v hv user hmem hvt htok)
      rw [hfst] at hnone
      refine ⟨?_, ?_⟩
      · rw [hfst]
        simp only [AuthSvc.refreshRoute, hnone]
      · intro tNever hN
        rw [hfst] at hN ⊢
        simp only [AuthSvc.refreshRoute, hN]

/-- C2 witness: rotating the sample store's token "t0" to "f1" makes a
second presentation of "t0" fail 401 with the store unchanged. -/
theorem refresh_supersedes_old_token_witness :
    AuthSvc.refreshRoute
        (AuthSvc.refreshRoute sampleUsers (some "t0") "f1" 500 "s").table
        (some "t0") "f2" 600 "s"
      = ⟨401, "Invalid refresh token", [], [],
          (AuthSvc.refreshRoute sampleUsers (some "t0") "f1" 500 "s").table⟩ :=
  (refresh_supersedes_old_token sampleUsers "t0" "f1" "f2" "f3" 500 600 700 "s"
    (by decide) (by decide) (by decide)).1

/-- C7: every issued access token has `expiresAt = issuedAt + 15` minutes,
and verification is a strict time bound: the token (with its valid
signature) is accepted by the verification middleware at
`issuedAt + 14min59s` and rejected at `issuedAt + 15min + 1s`. -/
theorem accessToken_expiry_bounds (u : AuthSvc.UserRow) (secret : String)
    (nowMs : Nat) :
    (AuthSvc.issueAccessToken u secret nowMs).payload.exp
      = (AuthSvc.issueAccessToken u secret nowMs).payload.iat + 15 * 60 ∧
    TodoSvc.authMiddleware (some (AuthSvc.issueAccessToken u secret nowMs))
        secret ((AuthSvc.issueAccessToken u secret nowMs).payload.iat
          + (14 * 60 + 59))
      = .authorized u.id u.username ∧
    TodoSvc.authMiddleware (some (AuthSvc.issueAccessToken u secret nowMs))
        secret ((AuthSvc.issueAccessToken u secret nowMs).payload.iat
          + (15 * 60 + 1))
      = .rejected 403 "Invalid or expired token" := by
  refine ⟨rfl, ?_, ?_⟩ <;>
    simp [AuthSvc.issueAccessToken, TodoSvc.authMiddleware, jwtSign,
      jwtVerify, mkSig]

/-- C4 counterexample: a syntactically valid, correctly signed but expired
access token presented to the todo-service verification middleware is
answered with status 403, not 401 as the claim states. -/
theorem todoMw_expired_token_is_403 :
    TodoSvc.mwStatus (TodoSvc.authMiddleware
        (some (jwtSign 1 "alice" "secret" 0 (15 * 60))) "secret" 901)
      = some 403 ∧ some 403 ≠ some (401 : Nat) := by
  constructor
  · simp [TodoSvc.authMiddleware, jwtSign, jwtVerify, mkSig, TodoSvc.mwStatus]
  · decide

/-- C4 amended: the todo-service verification middleware answers 401 when
the accessToken cookie is absent and 403 (not 401) whenever a token is
present but fails verification (bad signature or expired); a verified
token produces no middleware response at all and the handler runs. -/
theorem todoMw_status_partition (c : Option Jwt) (secret : String)
    (nowSec : Nat) :
    (c = none →
      TodoSvc.mwStatus (TodoSvc.authMiddleware c secret nowSec) = some 401) ∧
    (∀ t, c = some t → jwtVerify t secret nowSec = none →
      TodoSvc.mwStatus (TodoSvc.authMiddleware c secret nowSec) = some 403) ∧
    (∀ t p, c = some t → jwtVerify t secret nowSec = some p →
      TodoSvc.mwStatus (TodoSvc.authMiddleware c secret nowSec) = none) := by
  refine ⟨?_, ?_, ?_⟩
  · rintro rfl; rfl
  · rintro t rfl hv
    simp [TodoSvc.authMiddleware, hv, TodoSvc.mwStatus]
  · rintro t p rfl hv
    simp [TodoSvc.authMiddleware, hv, TodoSvc.mwStatus]

/-- C4 amended, witness: concrete instances of all three branches. -/
theorem todoMw_status_partition_witness :
    TodoSvc.mwStatus (TodoSvc.authMiddleware none "s" 0) = some 401 ∧
    TodoSvc.mwStatus (TodoSvc.authMiddleware
        (some (jwtSign 1 "a" "s" 0 900)) "s" 1000) = some 403 ∧
    TodoSvc.mwStatus (TodoSvc.authMiddleware
        (some (jwtSign 1 "a" "s" 0 900)) "s" 10) = none := by
  refine ⟨(todoMw_status_partition none "s" 0).1 rfl,
    (todoMw_status_partition (some (jwtSign 1 "a" "s" 0 900)) "s" 1000).2.1
      (jwtSign 1 "a" "s" 0 900) rfl (by decide),
    (todoMw_status_partition (some (jwtSign 1 "a" "s" 0 900)) "s" 10).2.2
      (jwtSign 1 "a" "s" 0 900) ⟨1, "a", 0, 900⟩ rfl (by decide)⟩

/-- C10: the todo create handler performs no 400-level validation: a body
with no title goes straight to the insert, which fails the NOT NULL
constraint and is reported as 500 `Database error` with the table
unchanged; no body ever yields a 400; and a missing status (unlike a
missing title) is defaulted to `Todo`, the insert succeeding with the
caller's user_id. -/
theorem createTodo_no_validation (tbl : TodoSvc.TodosTable) (a : Nat)
    (description status : Option String) (ttl : String) (newId : Nat) :
    TodoSvc.createTodo tbl a none description status newId
      = ⟨500, .err "Database error", tbl⟩ ∧
    (∀ title d s, (TodoSvc.createTodo tbl a title d s newId).status ≠ 400) ∧
    TodoSvc.createTodo tbl a (some ttl) description none newId
      = ⟨201, .row ⟨newId, some ttl, description, some "Todo", a⟩,
          tbl ++ [⟨newId, some ttl, description, some "Todo", a⟩]⟩ := by
  refine ⟨rfl, ?_, rfl⟩
  rintro (_ | t) d s <;> simp [TodoSvc.createTodo]

/-- C8: GET `/users` on the identity service, presented with any access
token that verifies (whatever account it asserts), answers 200 with the
id, username, email and created_at of every account in the store. -/
theorem getUsers_enumerates_all (tbl : AuthSvc.UsersTable) (t : Jwt)
    (secret : String) (nowSec : Nat) (p : JwtPayload)
    (hv : jwtVerify t secret nowSec = some p) :
    AuthSvc.getUsers tbl (some t) secret nowSec
      = (200, some (tbl.map AuthSvc.publicFields)) ∧
    ∀ u ∈ tbl, AuthSvc.publicFields u ∈ tbl.map AuthSvc.publicFields := by
  constructor
  · simp [AuthSvc.getUsers, AuthSvc.authMiddleware, hv]
  · intro u hu
    exact List.mem_map_of_mem _ hu

/-- C8 witness: a token asserting account 99 still receives every user of
the sample store. -/
theorem getUsers_enumerates_all_witness :
    AuthSvc.getUsers sampleUsers (some (jwtSign 99 "mallory" "s" 0 900)) "s" 10
      = (200, some [(1, "alice", "alice@x.com", 0)]) := by
  have h := getUsers_enumerates_all sampleUsers
    (jwtSign 99 "mallory" "s" 0 900) "s" 10
    ((jwtSign 99 "mallory" "s" 0 900).payload) (by decide)
  exact h.1.trans (by decide)

/-- C6: a login with an unknown email and a login with a known email but
wrong password produce literally the same outcome — status 400, body
`Invalid credentials`, no cookies set, store unchanged — so the client
cannot learn whether the email exists. -/
theorem login_invalid_credentials_indistinguishable
    (tbl : AuthSvc.UsersTable) (e1 p1 e2 p2 f1 f2 : String) (n1 n2 : Nat)
    (s1 s2 : String) (u : AuthSvc.UserRow)
    (he1 : e1 ≠ "") (hp1 : p1 ≠ "") (he2 : e2 ≠ "") (hp2 : p2 ≠ "")
    (habsent : AuthSvc.findByEmail tbl e1 = none)
    (hfound : AuthSvc.findByEmail tbl e2 = some u)
    (hmismatch : bcryptCompare p2 u.password = false) :
    AuthSvc.login tbl e1 p1 f1 n1 s1 = AuthSvc.login tbl e2 p2 f2 n2 s2 ∧
    AuthSvc.login tbl e1 p1 f1 n1 s1
      = ⟨400, "Invalid credentials", [], [], tbl⟩ := by
  have h1 : AuthSvc.login tbl e1 p1 f1 n1 s1
      = ⟨400, "Invalid credentials", [], [], tbl⟩ := by
    simp [AuthSvc.login, he1, hp1, habsent]
  have h2 : AuthSvc.login tbl e2 p2 f2 n2 s2
      = ⟨400, "Invalid credentials", [], [], tbl⟩ := by
    simp [AuthSvc.login, he2, hp2, hfound, hmismatch]
  exact ⟨h1.trans h2.symm, h1⟩

/-- C6 witness: unknown email vs wrong password against the sample store. -/
theorem login_invalid_credentials_indistinguishable_witness :
    AuthSvc.login sampleUsers "bob@x.com" "pw" "f1" 5 "s"
      = AuthSvc.login sampleUsers "alice@x.com" "wrongpw" "f2" 6 "s" ∧
    AuthSvc.login sampleUsers "bob@x.com" "pw" "f1" 5 "s"
      = ⟨400, "Invalid credentials", [], [], sampleUsers⟩ :=
  login_invalid_credentials_indistinguishable sampleUsers
    "bob@x.com" "pw" "alice@x.com" "wrongpw" "f1" "f2" 5 6 "s" "s"
    ⟨1, "alice", "alice@x.com", bcryptHash "pw123456", 0, some "t0", some 1000⟩
    (by decide) (by decide) (by decide) (by decide)
    (by decide) (by decide) (by decide)

/-- Tables reachable from the update handler. -/
lemma updateTodo_table (tbl : TodoSvc.TodosTable) (tid a : Nat)
    (title description status : Option String) :
    (TodoSvc.updateTodo tbl tid a title description status).table = tbl ∨
    (TodoSvc.updateTodo tbl tid a title description status).table
      = tbl.map (fun r =>
          if r.id == tid && r.user_id == a then
            { r with title := title, description := description,
                     status := status }
          else r) := by
  unfold TodoSvc.updateTodo
  split
  · exact Or.inl rfl
  · split
    · exact Or.inl rfl
    · split
      · exact Or.inl rfl
      · exact Or.inr rfl

/-- Statuses reachable from the update handler. -/
lemma updateTodo_status (tbl : TodoSvc.TodosTable) (tid a : Nat)
    (title description status : Option String) :
    (TodoSvc.updateTodo tbl tid a title description status).status = 404 ∨
    (TodoSvc.updateTodo tbl tid a title description status).status = 500 ∨
    (TodoSvc.updateTodo tbl tid a title description status).status = 200 := by
  unfold TodoSvc.updateTodo
  split
  · exact Or.inl rfl
  · split
    · exact Or.inr (Or.inl rfl)
    · split
      · exact Or.inl rfl
      · exact Or.inr (Or.inr rfl)

/-- A row returned by the update handler satisfies the WHERE clause. -/
lemma updateTodo_row (tbl : TodoSvc.TodosTable) (tid a : Nat)
    (title description status : Option String) (r : TodoSvc.Todo)
    (hr : (TodoSvc.updateTodo tbl tid a title description status).body
      = .row r) :
    (r.id == tid && r.user_id == a) = true := by
  unfold TodoSvc.updateTodo at hr
  split at hr
  · simp at hr
  · split at hr
    · simp at hr
    · split at hr
      · simp at hr
      · rename_i w hfind
        simp only [TodoSvc.TodoBody.row.injEq] at hr
        subst hr
        have hp := List.find?_some hfind
        exact hp

/-- Tables reachable from the soft-delete handler. -/
lemma softDeleteTodo_table (tbl : TodoSvc.TodosTable) (tid a : Nat) :
    (TodoSvc.softDeleteTodo tbl tid a).table = tbl ∨
    (TodoSvc.softDeleteTodo tbl tid a).table
      = tbl.map (fun r =>
          if r.id == tid && r.user_id == a then
            { r with status := some "Deleted" }
          else r) := by
  unfold TodoSvc.softDeleteTodo
  split
  · exact Or.inl rfl
  · exact Or.inr rfl

/-- Statuses reachable from the soft-delete handler. -/
lemma softDeleteTodo_status (tbl : TodoSvc.TodosTable) (tid a : Nat) :
    (TodoSvc.softDeleteTodo tbl tid a).status = 404 ∨
    (TodoSvc.softDeleteTodo tbl tid a).status = 200 := by
  unfold TodoSvc.softDeleteTodo
  split
  · exact Or.inl rfl
  · exact Or.inr rfl

/-- A row returned by the soft-delete handler satisfies the WHERE clause. -/
lemma softDeleteTodo_row (tbl : TodoSvc.TodosTable) (tid a : Nat)
    (r : TodoSvc.Todo)
    (hr : (TodoSvc.softDeleteTodo tbl tid a).body = .row r) :
    (r.id == tid && r.user_id == a) = true := by
  unfold TodoSvc.softDeleteTodo at hr
  split at hr
  · simp at hr
  · rename_i w hfind
    simp only [TodoSvc.TodoBody.row.injEq] at hr
    subst hr
    have hp := List.find?_some hfind
    exact hp

/-- Statuses reachable from the get-by-id handler. -/
lemma getTodo_status (tbl : TodoSvc.TodosTable) (tid a : Nat) :
    (TodoSvc.getTodo tbl tid a).status = 404 ∨
    (TodoSvc.getTodo tbl tid a).status = 200 := by
  unfold TodoSvc.getTodo
  split
  · exact Or.inl rfl
  · exact Or.inr rfl

/-- Statuses reachable from the permanent-delete handler. -/
lemma permanentDeleteTodo_status (tbl : TodoSvc.TodosTable) (tid a : Nat) :
    (TodoSvc.permanentDeleteTodo tbl tid a).status = 404 ∨
    (TodoSvc.permanentDeleteTodo tbl tid a).status = 200 := by
  unfold TodoSvc.permanentDeleteTodo
  split
  · exact Or.inl rfl
  · exact Or.inr rfl

/-- Tables reachable from the permanent-delete handler. -/
lemma permanentDeleteTodo_table (tbl : TodoSvc.TodosTable) (tid a : Nat) :
    (TodoSvc.permanentDeleteTodo tbl tid a).table = tbl ∨
    (TodoSvc.permanentDeleteTodo tbl tid a).table
      = tbl.filter (fun r => !(r.id == tid && r.user_id == a)) := by
  unfold TodoSvc.permanentDeleteTodo
  split
  · exact Or.inl rfl
  · exact Or.inr rfl

/-- C5: every todo handler scopes strictly by the verified account id `a`:
list returns only rows owned by `a`; get-by-id returns only a row owned by
`a` and present in the table; create inserts a row carrying `a` as owner
(or leaves the table unchanged on failure); update, soft delete and
permanent delete leave the sublist of rows owned by other accounts exactly
as it was; rows returned by update and soft delete are owned by `a`; no
handler ever answers 403; and addressing an id that exists but is owned
only by other accounts yields 404 from every addressing handler. -/
theorem todo_handlers_scope_by_owner (tbl : TodoSvc.TodosTable)
    (a tid newId : Nat) (title description status : Option String) :
    (∀ l, (TodoSvc.listTodos tbl a).body = .rows l →
      ∀ r ∈ l, r.user_id = a) ∧
    (∀ r, (TodoSvc.getTodo tbl tid a).body = .row r →
      r.user_id = a ∧ r ∈ tbl) ∧
    ((TodoSvc.createTodo tbl a title description status newId).table = tbl ∨
      (TodoSvc.createTodo tbl a title description status newId).table
        = tbl ++ [⟨newId, title, description,
            some (TodoSvc.statusOrTodo status), a⟩]) ∧
    ((TodoSvc.updateTodo tbl tid a title description status).table.filter
        (fun r => !(r.user_id == a))
      = tbl.filter (fun r => !(r.user_id == a))) ∧
    ((TodoSvc.softDeleteTodo tbl tid a).table.filter
        (fun r => !(r.user_id == a))
      = tbl.filter (fun r => !(r.user_id == a))) ∧
    ((TodoSvc.permanentDeleteTodo tbl tid a).table.filter
        (fun r => !(r.user_id == a))
      = tbl.filter (fun r => !(r.user_id == a))) ∧
    (∀ r, (TodoSvc.updateTodo tbl tid a title description status).body
        = .row r → r.user_id = a) ∧
    (∀ r, (TodoSvc.softDeleteTodo tbl tid a).body = .row r →
      r.user_id = a) ∧
    ((TodoSvc.getTodo tbl tid a).status ≠ 403 ∧
      (TodoSvc.updateTodo tbl tid a title description status).status ≠ 403 ∧
      (TodoSvc.softDeleteTodo tbl tid a).status ≠ 403 ∧
      (TodoSvc.permanentDeleteTodo tbl tid a).status ≠ 403) ∧
    ((∃ r ∈ tbl, r.id = tid) → (∀ r ∈ tbl, r.id = tid → r.user_id ≠ a) →
      ((TodoSvc.getTodo tbl tid a).status = 404 ∧
       (TodoSvc.updateTodo tbl tid a title description status).status = 404 ∧
       (TodoSvc.softDeleteTodo tbl tid a).status = 404 ∧
       (TodoSvc.permanentDeleteTodo tbl tid a).status = 404)) := by
  refine ⟨?_, ?_, ?_, ?_, ?_, ?_, ?_, ?_, ?_, ?_⟩
  · intro l hl r hr
    have hl' : (tbl.filter (fun r => r.user_id == a)).mergeSort
        (fun r s => r.id ≤ s.id) = l := by
      simpa [TodoSvc.listTodos] using hl
    rw [← hl'] at hr
    have hmem : r ∈ tbl.filter (fun r => r.user_id == a) :=
      List.mem_mergeSort.1 hr
    simpa using List.of_mem_filter hmem
  · intro r hr
    unfold TodoSvc.getTodo at hr
    cases hfind : tbl.find? (fun r => r.id == tid && r.user_id == a) with
    | none => rw [hfind] at hr; simp at hr
    | some w =>
      rw [hfind] at hr
      simp only [TodoSvc.TodoBody.row.injEq] at hr
      subst hr
      have hp := List.find?_some hfind
      have hmem := List.mem_of_find?_eq_some hfind
      simp only [Bool.and_eq_true, beq_iff_eq] at hp
      exact ⟨hp.2, hmem⟩
  · cases title with
    | none => exact Or.inl rfl
    | some ttl => exact Or.inr rfl
  · rcases updateTodo_table tbl tid a title description status with h | h
    · rw [h]
    · rw [h]
      refine filter_not_owner_map tbl a _ ?_ ?_
      · intro r hr
        simp [hr]
      · intro r
        split <;> rfl
  · rcases softDeleteTodo_table tbl tid a with h | h
    · rw [h]
    · rw [h]
      refine filter_not_owner_map tbl a _ ?_ ?_
      · intro r hr
        simp [hr]
      · intro r
        split <;> rfl
  · rcases permanentDeleteTodo_table tbl tid a with h | h
    · rw [h]
    · rw [h]
      exact filter_not_owner_filter tbl a tid
  · intro r hr
    have hp := updateTodo_row tbl tid a title description status r hr
    simp only [Bool.and_eq_true, beq_iff_eq] at hp
    exact hp.2
  · intro r hr
    have hp := softDeleteTodo_row tbl tid a r hr
    simp only [Bool.and_eq_true, beq_iff_eq] at hp
    exact hp.2
  · refine ⟨?_, ?_, ?_, ?_⟩
    · rcases getTodo_status tbl tid a with h | h <;> simp [h]
    · rcases updateTodo_status tbl tid a title description status
        with h | h | h <;> simp [h]
    · rcases softDeleteTodo_status tbl tid a with h | h <;> simp [h]
    · rcases permanentDeleteTodo_status tbl tid a with h | h <;> simp [h]
  · intro _ hall
    have hpred : ∀ r ∈ tbl, (r.id == tid && r.user_id == a) = false := by
      intro r hr
      by_cases hid : r.id = tid
      · have hne := hall r hr hid
        simp [hid, hne]
      · simp [hid]
    have hfind : tbl.find? (fun r => r.id == tid && r.user_id == a)
        = none := by
      rw [List.find?_eq_none]
      intro x hx
      simp [hpred x hx]
    refine ⟨?_, ?_, ?_, ?_⟩
    · simp [TodoSvc.getTodo, hfind]
    · simp [TodoSvc.updateTodo, hfind]
    · have h2 : (tbl.map (fun r =>
          if r.id == tid && r.user_id == a then
            { r with status := some "Deleted" }
          else r)).find? (fun r => r.id == tid && r.user_id == a)
          = none :=
        find?_map_pred_none tbl _ _ (fun r => by split <;> rfl) hpred
      unfold TodoSvc.softDeleteTodo
      rw [h2]
    · simp [TodoSvc.permanentDeleteTodo, hfind]

/-- C5 witness: addressing todo 2 (owned by account 2) as account 1 in the
sample store yields 404 from get, update, soft delete and permanent
delete. -/
theorem todo_handlers_scope_by_owner_witness :
    (TodoSvc.getTodo sampleTodos 2 1).status = 404 ∧
    (TodoSvc.updateTodo sampleTodos 2 1 (some "x") none none).status = 404 ∧
    (TodoSvc.softDeleteTodo sampleTodos 2 1).status = 404 ∧
    (TodoSvc.permanentDeleteTodo sampleTodos 2 1).status = 404 :=
  (todo_handlers_scope_by_owner sampleTodos 1 2 9 (some "x") none
    none).2.2.2.2.2.2.2.2.2
    ⟨⟨2, some "ship release", none, some "InProgress", 2⟩, by decide, rfl⟩
    (by decide)

/-- Over a table with a unique holder of a predicate preserved by a row
transformer, find? on the transformed table returns the transformed
holder. -/
lemma find?_map_unique (l : TodoSvc.TodosTable) (p : TodoSvc.Todo → Bool)
    (g : TodoSvc.Todo → TodoSvc.Todo) (hp : ∀ r, p (g r) = p r)
    (r : TodoSvc.Todo) (hpr : p r = true) (hr : r ∈ l)
    (huniq : ∀ w ∈ l, p w = true → w = r) :
    (l.map g).find? p = some (g r) := by
  induction l with
  | nil => cases hr
  | cons x xs ih =>
    cases hx : p x with
    | true =>
      have hxr : x = r := huniq x (by simp) hx
      subst hxr
      rw [List.map_cons, List.find?_cons_of_pos]
      rw [hp]
      exact hx
    | false =>
      have hrx : r ∈ xs := by
        rcases List.mem_cons.1 hr with h | h
        · rw [h] at hpr
          rw [hpr] at hx
          cases hx
        · exact h
      rw [List.map_cons, List.find?_cons_of_neg]
      · exact ih hrx (fun w hw hpw => huniq w (List.mem_cons_of_mem _ hw) hpw)
      · rw [hp, hx]
        simp

/-- C9: soft delete of a todo `r` with id `i` owned by `a` (ids unique in
the table) answers 200 returning `r` with only its status replaced by
`Deleted`; the table keeps its length, every row other than `r` is
unchanged at its position, `r`'s position holds exactly the
status-updated row; and the soft-deleted row stays visible to its owner:
a subsequent get-by-id returns it and a subsequent list contains it,
since no read filters on status. -/
theorem softDelete_only_status_and_still_visible
    (tbl : TodoSvc.TodosTable) (a i : Nat) (r : TodoSvc.Todo)
    (hmem : r ∈ tbl) (hid : r.id = i) (huid : r.user_id = a)
    (hnodup : tbl.Pairwise (fun x y => x.id ≠ y.id)) :
    (TodoSvc.softDeleteTodo tbl i a).status = 200 ∧
    (TodoSvc.softDeleteTodo tbl i a).body
      = .row { r with status := some "Deleted" } ∧
    (TodoSvc.softDeleteTodo tbl i a).table.length = tbl.length ∧
    (∀ (j : Nat) (w : TodoSvc.Todo), tbl[j]? = some w → w ≠ r →
        (TodoSvc.softDeleteTodo tbl i a).table[j]? = some w) ∧
    (∀ (j : Nat), tbl[j]? = some r →
        (TodoSvc.softDeleteTodo tbl i a).table[j]?
          = some { r with status := some "Deleted" }) ∧
    TodoSvc.getTodo (TodoSvc.softDeleteTodo tbl i a).table i a
      = ⟨200, .row { r with status := some "Deleted" },
          (TodoSvc.softDeleteTodo tbl i a).table⟩ ∧
    (∀ l, (TodoSvc.listTodos (TodoSvc.softDeleteTodo tbl i a).table a).body
        = .rows l → { r with status := some "Deleted" } ∈ l) := by
  have hpr : (r.id == i && r.user_id == a) = true := by
    simp [hid, huid]
  have huniqr : ∀ w ∈ tbl, (w.id == i && w.user_id == a) = true → w = r := by
    intro w hw hpw
    by_cases hwr : w = r
    · exact hwr
    · have hsym : Symmetric (fun x y : TodoSvc.Todo => x.id ≠ y.id) :=
        fun x y h => Ne.symm h
      have hne := hnodup.forall hsym hw hmem hwr
      simp only [Bool.and_eq_true, beq_iff_eq] at hpw
      exact absurd (hpw.1.trans hid.symm) hne
  have hgpres : ∀ w : TodoSvc.Todo,
      (((if w.id == i && w.user_id == a then
          { w with status := some "Deleted" } else w) : TodoSvc.Todo).id
            == i
        && ((if w.id == i && w.user_id == a then
          { w with status := some "Deleted" } else w) : TodoSvc.Todo).user_id
            == a)
      = (w.id == i && w.user_id == a) := by
    intro w
    split <;> rfl
  have hfind : (tbl.map (fun w =>
      if w.id == i && w.user_id == a then
        { w with status := some "Deleted" } else w)).find?
        (fun w => w.id == i && w.user_id == a)
      = some { r with status := some "Deleted" } := by
    have h := find?_map_unique tbl (fun w => w.id == i && w.user_id == a)
      (fun w => if w.id == i && w.user_id == a then
        { w with status := some "Deleted" } else w) hgpres r hpr hmem huniqr
    rw [h]
    simp [hpr]
  have hres : TodoSvc.softDeleteTodo tbl i a
      = ⟨200, .row { r with status := some "Deleted" },
          tbl.map (fun w =>
            if w.id == i && w.user_id == a then
              { w with status := some "Deleted" } else w)⟩ := by
    unfold TodoSvc.softDeleteTodo
    rw [hfind]
  refine ⟨by rw [hres], by rw [hres], ?_, ?_, ?_, ?_, ?_⟩
  · rw [hres]
    exact List.length_map _ _
  · intro j w hw hwr
    rw [hres]
    simp only [List.getElem?_map, hw, Option.map_some]
    have hpw : (w.id == i && w.user_id == a) = false := by
      by_cases h : (w.id == i && w.user_id == a) = true
      · exact absurd (huniqr w (List.getElem?_mem hw) h) hwr
      · exact Bool.eq_false_iff.2 h
    simp [hpw]
    intro h1 h2
    rw [h1, h2] at hpw
    simp at hpw
  · intro j hj
    rw [hres]
    simp only [List.getElem?_map, hj, Option.map_some]
    simp [hpr]
    intro h
    simp only [Bool.and_eq_true, beq_iff_eq] at hpr
    exact absurd hpr.2 (h hpr.1)
  · rw [hres]
    unfold TodoSvc.getTodo
    rw [hfind]
  · intro l hl
    rw [hres] at hl
    simp only [TodoSvc.listTodos, TodoSvc.TodoBody.rows.injEq] at hl
    rw [← hl]
    rw [List.mem_mergeSort]
    rw [List.mem_filter]
    constructor
    · have : { r with status := some "Deleted" }
          = (fun w => if w.id == i && w.user_id == a then
              { w with status := some "Deleted" } else w) r := by
        simp [hpr]
      rw [this]
      exact List.mem_map_of_mem _ hmem
    · simp [huid]

/-- C9 witness: soft-deleting todo 1 of the sample store as its owner. -/
theorem softDelete_only_status_and_still_visible_witness :
    (TodoSvc.softDeleteTodo sampleTodos 1 1).status = 200 ∧
    (TodoSvc.softDeleteTodo sampleTodos 1 1).body
      = .row ⟨1, some "buy milk", some "2l", some "Deleted", 1⟩ :=
  ⟨(softDelete_only_status_and_still_visible sampleTodos 1 1
      ⟨1, some "buy milk", some "2l", some "Todo", 1⟩
      (by decide) rfl rfl (by decide)).1,
   (softDelete_only_status_and_still_visible sampleTodos 1 1
      ⟨1, some "buy milk", some "2l", some "Todo", 1⟩
      (by decide) rfl rfl (by decide)).2.1⟩

/-- C10 witness: creating a todo with no title against the sample store is
answered 500 `Database error` with the table unchanged. -/
theorem createTodo_no_validation_witness :
    TodoSvc.createTodo sampleTodos 1 none none none 9
      = ⟨500, .err "Database error", sampleTodos⟩ :=
  (createTodo_no_validation sampleTodos 1 none none "x" 9).1
